import Mathlib

/-!
Shallow embedding of the query matching engine of nosqlite.py
(Connection/Collection document store over sqlite).

Documents and query expressions are JSON-like Python values, modelled by
the inductive type Value below.  The evaluator Collection._apply_query,
the operator registry Collection._get_operator_fn and the module-level
operator functions _eq, _ne, _gt, _gte, _lt, _lte, _all, _in, _nin,
_mod, _exists are translated one by one.  Python exceptions that escape
the evaluator are modelled by the error side of an Except value:
MalformedQueryException is the exception class raised by the code
itself, while attributeError, typeError and zeroDivisionError stand for
the built-in AttributeError, TypeError and ZeroDivisionError that
uncaught operations raise.
-/

/-- A JSON-style Python value: None, bool, int, str, list, or dict with
string keys.  This is the shape of stored documents (json.loads output)
and of query expressions. -/
inductive Value where
  | null : Value
  | bool : Bool → Value
  | int : Int → Value
  | str : String → Value
  | arr : List Value → Value
  | obj : List (String × Value) → Value

/-- A document: a Python dict from string field names to values. -/
abbrev Doc := List (String × Value)

/-- First-match association-list lookup, the model of Python dict key
lookup (dict keys are unique, so first match is the match). -/
def alookup : List (String × Value) → String → Option Value
  | [], _ => none
  | (k, v) :: rest, key => if k = key then some v else alookup rest key

/-- Python document.get(field, None): the field value, or None when
the key is absent. -/
def docGet (doc : Doc) (field : String) : Value :=
  (alookup doc field).getD .null

/-- Python `field in document`: dict key membership. -/
def hasKey (doc : Doc) (field : String) : Bool :=
  (alookup doc field).isSome

/-- Python `sep in s` for a single character: character membership. -/
def pyContains (s : String) (c : Char) : Bool :=
  s.toList.any (fun d => d = c)

/-- Python s.startswith(c) for a one-character prefix. -/
def pyStartsWith (s : String) (c : Char) : Bool :=
  match s.toList with
  | d :: _ => d = c
  | [] => false

/-- The worker of Python s.split(sep): cut at every separator, keeping
empty pieces. -/
def pySplitAux (sep : Char) : List Char → List Char → List String
  | [], acc => [String.mk acc.reverse]
  | c :: cs, acc =>
    if c = sep then String.mk acc.reverse :: pySplitAux sep cs []
    else pySplitAux sep cs (c :: acc)

/-- Python s.split(sep) for a one-character separator: the pieces
between separators, in order; a string without the separator yields the
one-element list of itself. -/
def pySplit (s : String) (sep : Char) : List String :=
  pySplitAux sep s.toList []

/-- Python string comparison: lexicographic on code points. -/
def pyStrCmp : List Char → List Char → Ordering
  | [], [] => .eq
  | [], _ :: _ => .lt
  | _ :: _, [] => .gt
  | a :: as, b :: bs =>
    if a.toNat < b.toNat then .lt
    else if b.toNat < a.toNat then .gt
    else pyStrCmp as bs

mutual
/-- Python == on JSON values: None equals only None; bool and int
compare numerically (True == 1, False == 0); str, list and dict compare
structurally; values of different kinds are unequal (never an error). -/
def pyEq : Value → Value → Bool
  | .null, .null => true
  | .str a, .str b => a == b
  | .arr a, .arr b => pyEqList a b
  | .obj a, .obj b => a.length == b.length && pyEqObjSub a b
  | .int a, .int b => a == b
  | .int a, .bool b => a == (if b then 1 else 0)
  | .bool a, .int b => (if a then (1 : Int) else 0) == b
  | .bool a, .bool b => a == b
  | _, _ => false

/-- Python list ==: pairwise equality, equal lengths. -/
def pyEqList : List Value → List Value → Bool
  | [], [] => true
  | x :: xs, y :: ys => pyEq x y && pyEqList xs ys
  | _, _ => false

/-- One direction of Python dict ==: every key of the first dict is in
the second with an equal value (with unique keys, together with the
length check this is dict equality). -/
def pyEqObjSub : List (String × Value) → List (String × Value) → Bool
  | [], _ => true
  | (k, v) :: rest, b =>
    (match alookup b k with
     | some w => pyEq v w
     | none => false) && pyEqObjSub rest b
end

mutual
/-- Python ordered comparison on JSON values, as used by <, <=, >, >=.
Returns none where Python raises TypeError: mixed kinds, None, or
dicts.  int and bool order numerically; str orders lexicographically;
lists order lexicographically, skipping ==-equal prefixes. -/
def pyOrd : Value → Value → Option Ordering
  | .int a, .int b => some (compare a b)
  | .int a, .bool b => some (compare a (if b then 1 else 0))
  | .bool a, .int b => some (compare (if a then (1 : Int) else 0) b)
  | .bool a, .bool b => some (compare (if a then (1 : Int) else 0) (if b then 1 else 0))
  | .str a, .str b => some (pyStrCmp a.toList b.toList)
  | .arr a, .arr b => pyOrdList a b
  | _, _ => none

/-- Python list ordering: the first ==-unequal pair decides; otherwise
the shorter list is smaller. -/
def pyOrdList : List Value → List Value → Option Ordering
  | [], [] => some .eq
  | [], _ :: _ => some .lt
  | _ :: _, [] => some .gt
  | x :: xs, y :: ys => if pyEq x y then pyOrdList xs ys else pyOrd x y
end

/-- Python truthiness of a JSON value, as used by `if value:` and by
`query or {}`. -/
def pyTruthy : Value → Bool
  | .null => false
  | .bool b => b
  | .int n => n != 0
  | .str s => !s.isEmpty
  | .arr xs => !xs.isEmpty
  | .obj fs => !fs.isEmpty

/-- Python iter(value) for JSON values: lists yield their elements,
strings their one-character substrings, dicts their keys; None, bool
and int are not iterable (TypeError, modelled as none). -/
def iterElems : Value → Option (List Value)
  | .arr xs => some xs
  | .str s => some (s.toList.map (fun c => Value.str (String.mk [c])))
  | .obj fs => some (fs.map (fun kv => Value.str kv.1))
  | _ => none

/-- Whether a JSON value is hashable in Python (set members must be):
lists and dicts are not. -/
def hashable : Value → Bool
  | .arr _ => false
  | .obj _ => false
  | _ => true

/-- The digit run of Python int(s): at least one decimal digit. -/
def digitsVal (ds : List Char) : Option Nat :=
  if ds.isEmpty || !ds.all Char.isDigit then none
  else some (ds.foldl (fun acc c => acc * 10 + (c.toNat - 48)) 0)

/-- Python int(s) for a string: optional surrounding whitespace, an
optional sign, then at least one digit; anything else raises
ValueError (modelled as none). -/
def parseIntStr (s : String) : Option Int :=
  let t := ((s.toList.dropWhile Char.isWhitespace).reverse.dropWhile Char.isWhitespace).reverse
  match t with
  | '-' :: ds => (digitsVal ds).map (fun n => -(n : Int))
  | '+' :: ds => (digitsVal ds).map (fun n => (n : Int))
  | ds => (digitsVal ds).map (fun n => (n : Int))

/-- Python int(value) on a JSON value: ints stay, bools become 0 or 1,
numeric strings parse; None, lists and dicts raise TypeError and other
strings raise ValueError (both modelled as none). -/
def toInt : Value → Option Int
  | .int n => some n
  | .bool b => some (if b then 1 else 0)
  | .str s => parseIntStr s
  | _ => none

/-- The `divisor, remainder = map(int, value)` unpacking of _mod: value
must be an iterable of exactly two int-convertible elements, otherwise
TypeError or ValueError is raised (modelled as none, which _mod turns
into a MalformedQueryException). -/
def modPair (v : Value) : Option (Int × Int) :=
  match iterElems v with
  | none => none
  | some [a, b] =>
    match toInt a, toInt b with
    | some d, some r => some (d, r)
    | _, _ => none
  | some _ => none

/-- The exception class MalformedQueryException of nosqlite.py.  One
constructor per raise site, each remembering the data interpolated into
the message of that site:
notValidOperation op : Operator op is not a valid query operation
  (raised by _get_operator_fn when op does not start with the sigil);
notImplemented op : Operator op is not currently implemented
  (raised by _get_operator_fn when no module function matches);
allIterable, inIterable, ninIterable : the respective operator must
  accept an iterable; modPair : $mod must accept an iterable
  [divisor, remainder]; existsBool : $exists must be supplied a
  boolean. -/
inductive MalformedQueryException where
  | notValidOperation : String → MalformedQueryException
  | notImplemented : String → MalformedQueryException
  | allIterable : MalformedQueryException
  | inIterable : MalformedQueryException
  | ninIterable : MalformedQueryException
  | modPair : MalformedQueryException
  | existsBool : MalformedQueryException
  deriving DecidableEq

/-- The operator string interpolated into the message of an unknown
operator error, if this error is one of the two _get_operator_fn raise
sites. -/
def MalformedQueryException.namedOperator : MalformedQueryException → Option String
  | .notValidOperation op => some op
  | .notImplemented op => some op
  | _ => none

/-- Whether this error is one of the wrong-argument-shape raise sites
of the operator functions (as opposed to the unknown-operator raise
sites of _get_operator_fn). -/
def MalformedQueryException.isShapeError : MalformedQueryException → Bool
  | .allIterable => true
  | .inIterable => true
  | .ninIterable => true
  | .modPair => true
  | .existsBool => true
  | _ => false

/-- An error escaping query evaluation: either the exception class of the code itself:
MalformedQueryException, or an uncaught Python built-in exception
(AttributeError from .items()/.get on a non-dict, TypeError from
iterating a non-iterable, ZeroDivisionError from % 0). -/
inductive EvalError where
  | malformed : MalformedQueryException → EvalError
  | attributeError : EvalError
  | typeError : EvalError
  | zeroDivisionError : EvalError
  deriving DecidableEq

/-- _eq: document.get(field, None) == value (== on JSON values never
raises, so the TypeError guard in the source is never hit). -/
def opEq (field : String) (value : Value) (doc : Doc) : Bool :=
  pyEq (docGet doc field) value

/-- _ne: document.get(field, None) != value. -/
def opNe (field : String) (value : Value) (doc : Doc) : Bool :=
  !pyEq (docGet doc field) value

/-- _gt: document.get(field, None) > value; TypeError (incomparable
kinds) is caught and yields False. -/
def opGt (field : String) (value : Value) (doc : Doc) : Bool :=
  match pyOrd (docGet doc field) value with
  | some o => o == .gt
  | none => false

/-- _lt: document.get(field, None) < value; TypeError yields False. -/
def opLt (field : String) (value : Value) (doc : Doc) : Bool :=
  match pyOrd (docGet doc field) value with
  | some o => o == .lt
  | none => false

/-- _gte: document.get(field, None) >= value; TypeError yields False. -/
def opGte (field : String) (value : Value) (doc : Doc) : Bool :=
  match pyOrd (docGet doc field) value with
  | some o => o != .lt
  | none => false

/-- _lte: document.get(field, None) <= value; TypeError yields False. -/
def opLte (field : String) (value : Value) (doc : Doc) : Bool :=
  match pyOrd (docGet doc field) value with
  | some o => o != .gt
  | none => false

/-- _all: set(value) must succeed (iterable with hashable elements),
else MalformedQueryException; set(document.get(field, [])) failing
yields False; otherwise the argument set must be contained in the
field-value set. -/
def opAll (field : String) (value : Value) (doc : Doc) : Except EvalError Bool :=
  match iterElems value with
  | none => .error (.malformed .allIterable)
  | some a =>
    if !a.all hashable then .error (.malformed .allIterable)
    else
      match iterElems ((alookup doc field).getD (.arr [])) with
      | none => .ok false
      | some b =>
        if !b.all hashable then .ok false
        else .ok (a.all (fun x => b.any (fun y => pyEq x y)))

/-- _in: iter(value) must succeed, else MalformedQueryException; then
document.get(field, None) in values. -/
def opIn (field : String) (value : Value) (doc : Doc) : Except EvalError Bool :=
  match iterElems value with
  | none => .error (.malformed .inIterable)
  | some vs => .ok (vs.any (fun y => pyEq (docGet doc field) y))

/-- _nin: iter(value) must succeed, else MalformedQueryException; then
document.get(field, None) not in values. -/
def opNin (field : String) (value : Value) (doc : Doc) : Except EvalError Bool :=
  match iterElems value with
  | none => .error (.malformed .ninIterable)
  | some vs => .ok (!vs.any (fun y => pyEq (docGet doc field) y))

/-- _mod: unpack [divisor, remainder] = map(int, value), raising
MalformedQueryException on failure; int(document.get(field, None))
failing yields False; then Python % (floor mod) against the divisor —
a zero divisor raises an uncaught ZeroDivisionError. -/
def opMod (field : String) (value : Value) (doc : Doc) : Except EvalError Bool :=
  match modPair value with
  | none => .error (.malformed .modPair)
  | some (divisor, remainder) =>
    match toInt (docGet doc field) with
    | none => .ok false
    | some n =>
      if divisor = 0 then .error .zeroDivisionError
      else .ok (Int.fmod n divisor == remainder)

/-- _exists: `value not in (True, False)` raises
MalformedQueryException (tuple membership uses ==, so 1 and 0 count as
True and False); then `if value:` decides between field-present and
field-absent. -/
def opExists (field : String) (value : Value) (doc : Doc) : Except EvalError Bool :=
  if !(pyEq value (.bool true) || pyEq value (.bool false)) then
    .error (.malformed .existsBool)
  else if pyTruthy value then .ok (hasKey doc field)
  else .ok (!hasKey doc field)

/-- The module-level operator functions reachable through
_get_operator_fn, one constructor per function. -/
inductive OpKind where
  | kEq | kNe | kGt | kGte | kLt | kLte | kAll | kIn | kNin | kMod | kExists
  deriving DecidableEq

/-- op.replace(the sigil, an underscore): every sigil character is
replaced. -/
def opReplace (op : String) : String :=
  String.mk (op.toList.map (fun c => if c = '$' then '_' else c))

/-- A module attribute reachable by getattr for an underscore-leading
name: one of the eleven operator functions, or a dunder attribute of
the module object itself (which is not a predicate; dunder carries the
attribute name). -/
inductive ModuleAttr where
  | opFn : OpKind → ModuleAttr
  | dunder : String → ModuleAttr
  deriving DecidableEq

/-- The dunder attribute names a CPython 3 module object exposes to
getattr beyond the names defined in the file: the module-dict entries
set by the import system together with the attributes inherited from
the module type.  (The exact set varies slightly across CPython
versions; this is the common core.)  getattr succeeds on these and
returns an object that is not one of the operator functions — a
string, None, a dict, a loader or spec object, the module type, or a
bound method of the wrong arity. -/
def moduleDunderNames : List String :=
  ["__builtins__", "__cached__", "__class__", "__delattr__", "__dict__",
   "__dir__", "__doc__", "__eq__", "__file__", "__format__", "__ge__",
   "__getattribute__", "__gt__", "__hash__", "__init__",
   "__init_subclass__", "__le__", "__loader__", "__lt__", "__name__",
   "__ne__", "__new__", "__package__", "__reduce__", "__reduce_ex__",
   "__repr__", "__setattr__", "__sizeof__", "__spec__", "__str__",
   "__subclasshook__"]

/-- getattr(module, name) for the names _get_operator_fn can produce
(the operator string passed the sigil check and every sigil was
replaced, so the name has a leading underscore): the eleven
underscore-named operator functions defined in nosqlite.py, and the
dunder attributes every module object carries; any other such name
raises AttributeError (none). -/
def lookupOp (s : String) : Option ModuleAttr :=
  if s = "_eq" then some (.opFn .kEq)
  else if s = "_ne" then some (.opFn .kNe)
  else if s = "_gt" then some (.opFn .kGt)
  else if s = "_gte" then some (.opFn .kGte)
  else if s = "_lt" then some (.opFn .kLt)
  else if s = "_lte" then some (.opFn .kLte)
  else if s = "_all" then some (.opFn .kAll)
  else if s = "_in" then some (.opFn .kIn)
  else if s = "_nin" then some (.opFn .kNin)
  else if s = "_mod" then some (.opFn .kMod)
  else if s = "_exists" then some (.opFn .kExists)
  else if moduleDunderNames.contains s then some (.dunder s)
  else none

/-- Collection._get_operator_fn: reject operators that do not start
with the sigil, then getattr op.replace(sigil, underscore) on the
module, raising for names that are no attribute at all.  An operator
string whose replaced form collides with a module dunder attribute
resolves successfully to that attribute — no MalformedQueryException
is raised for it. -/
def getOperatorFn (op : String) : Except MalformedQueryException ModuleAttr :=
  if !pyStartsWith op '$' then .error (.notValidOperation op)
  else
    match lookupOp (opReplace op) with
    | some a => .ok a
    | none => .error (.notImplemented op)

/-- Dispatch to the resolved operator function. -/
def runOp : OpKind → String → Value → Doc → Except EvalError Bool
  | .kEq, field, value, doc => .ok (opEq field value doc)
  | .kNe, field, value, doc => .ok (opNe field value doc)
  | .kGt, field, value, doc => .ok (opGt field value doc)
  | .kGte, field, value, doc => .ok (opGte field value doc)
  | .kLt, field, value, doc => .ok (opLt field value doc)
  | .kLte, field, value, doc => .ok (opLte field value doc)
  | .kAll, field, value, doc => opAll field value doc
  | .kIn, field, value, doc => opIn field value doc
  | .kNin, field, value, doc => opNin field value doc
  | .kMod, field, value, doc => opMod field value doc
  | .kExists, field, value, doc => opExists field value doc

/-- self._get_operator_fn(operator)(field, arg, document): resolution
followed by invocation; a resolution failure is the raised
MalformedQueryException.  When resolution lands on a module dunder
attribute, the three-argument call raises an uncaught TypeError: the
attribute is either not callable (a string, None, a dict, a loader or
spec object) or a callable of the wrong arity (the module type, a
bound method). -/
def applyOperator (op field : String) (arg : Value) (doc : Doc) : Except EvalError Bool :=
  match getOperatorFn op with
  | .error e => .error (.malformed e)
  | .ok (.opFn k) => runOp k field arg doc
  | .ok (.dunder _) => .error .typeError

/-- The descent loop `for path in nodes[:-1]: document_section =
document_section.get(path, None)` with its surrounding
try/except AttributeError: .get on a non-dict raises AttributeError,
which the except clause turns into None — both outcomes are none
here. -/
def descendLoop : Value → List String → Option Value
  | cur, [] => some cur
  | .obj fields, p :: ps => descendLoop ((alookup fields p).getD .null) ps
  | _, _ :: _ => none

/-- The literal (implicit equality) branch of _apply_query: direct
equality against document.get(field, None) first; on failure, a field
name containing a separator dot is split and resolved through nested
dicts.  The final segment lookup `document_section.get(nodes[-1],
None)` sits outside the try/except, so a non-dict, non-None
document_section at that point raises an uncaught AttributeError. -/
def evalLiteral (field : String) (value : Value) (doc : Doc) : Except EvalError Bool :=
  if pyEq value (docGet doc field) then .ok true
  else if pyContains field '.' then
    let nodes := pySplit field '.'
    match descendLoop (.obj doc) nodes.dropLast with
    | none => .ok false
    | some .null => .ok false
    | some (.obj fields) => .ok (pyEq value ((alookup fields (nodes.getLastD "")).getD .null))
    | some _ => .error .attributeError
  else .ok false

mutual
/-- The `for field, value in query.items()` loop of
Collection._apply_query: one boolean clause per entry, all of them
evaluated (matches is a list, conjoined by all() at the end), with the
first raised exception propagating. -/
def evalEntries : List (String × Value) → Doc → Except EvalError Bool
  | [], _ => .ok true
  | (field, value) :: rest, doc =>
    match evalClause field value doc with
    | .error e => .error e
    | .ok m =>
      match evalEntries rest doc with
      | .error e => .error e
      | .ok r => .ok (m && r)
termination_by structural entries => entries

/-- One iteration of the _apply_query loop: the logical keywords $and,
$or, $nor and $not, then the operator-mapping branch, then the literal
branch.  For the logical keywords, a sub-query that is not a dict makes
the recursive _apply_query call raise AttributeError on .items(); a
non-iterable operand raises TypeError; all()/any() over map() stop at
the first decisive sub-result. -/
def evalClause : String → Value → Doc → Except EvalError Bool
  | field, value, doc =>
    if field = "$and" then
      match value with
      | .arr qs => evalAndList qs doc
      | .str s => if s.toList.isEmpty then .ok true else .error .attributeError
      | .obj [] => .ok true
      | .obj (_ :: _) => .error .attributeError
      | _ => .error .typeError
    else if field = "$or" then
      match value with
      | .arr qs => evalOrList qs doc
      | .str s => if s.toList.isEmpty then .ok false else .error .attributeError
      | .obj [] => .ok false
      | .obj (_ :: _) => .error .attributeError
      | _ => .error .typeError
    else if field = "$nor" then
      match value with
      | .arr qs =>
        match evalOrList qs doc with
        | .error e => .error e
        | .ok b => .ok (!b)
      | .str s => if s.toList.isEmpty then .ok true else .error .attributeError
      | .obj [] => .ok true
      | .obj (_ :: _) => .error .attributeError
      | _ => .error .typeError
    else if field = "$not" then
      match value with
      | .obj entries =>
        match evalEntries entries doc with
        | .error e => .error e
        | .ok b => .ok (!b)
      | _ => .error .attributeError
    else
      match value with
      | .obj ops => evalOps field ops doc
      | _ => evalLiteral field value doc
termination_by structural _ value _ => value

/-- all(map(reapply, value)) over a list operand: recursive
_apply_query per element (AttributeError for non-dict elements),
stopping at the first False. -/
def evalAndList : List Value → Doc → Except EvalError Bool
  | [], _ => .ok true
  | q :: qs, doc =>
    match (match q with
           | .obj entries => evalEntries entries doc
           | _ => .error EvalError.attributeError) with
    | .error e => .error e
    | .ok true => evalAndList qs doc
    | .ok false => .ok false
termination_by structural qs => qs

/-- any(map(reapply, value)) over a list operand, stopping at the first
True. -/
def evalOrList : List Value → Doc → Except EvalError Bool
  | [], _ => .ok false
  | q :: qs, doc =>
    match (match q with
           | .obj entries => evalEntries entries doc
           | _ => .error EvalError.attributeError) with
    | .error e => .error e
    | .ok true => .ok true
    | .ok false => evalOrList qs doc
termination_by structural qs => qs

/-- The `for operator, arg in value.items()` loop of the
operator-mapping branch: resolve and invoke each operator in order,
appending False and breaking at the first false result, True when the
loop completes. -/
def evalOps : String → List (String × Value) → Doc → Except EvalError Bool
  | _, [], _ => .ok true
  | field, (op, arg) :: rest, doc =>
    match applyOperator op field arg doc with
    | .error e => .error e
    | .ok true => evalOps field rest doc
    | .ok false => .ok false
termination_by structural _ ops _ => ops
end

/-- Collection._apply_query(query, document): query.items() requires a
dict (AttributeError otherwise), then the conjunction of all clauses. -/
def applyQuery : Value → Doc → Except EvalError Bool
  | .obj entries, doc => evalEntries entries doc
  | _, _ => .error .attributeError

/-- Python dict assignment document[key] = v: replace the value of an
existing key, otherwise append the new entry. -/
def dictSet : List (String × Value) → String → Value → List (String × Value)
  | [], k, v => [(k, v)]
  | (k', v') :: rest, k, v =>
    if k' = k then (k, v) :: rest else (k', v') :: dictSet rest k v

/-- Collection._load(id, data): the deserialized stored document with
the synthetic identifier written into its _id field. -/
def load (id : Int) (data : List (String × Value)) : Doc :=
  dictSet data "_id" (.int id)

/-- The limit test `if limit and len(results) == limit` inside
Collection.find: None and 0 are falsy (no truncation); otherwise the
current result count is compared to the limit. -/
def limitReached (limit : Option Int) (n : Nat) : Bool :=
  match limit with
  | none => false
  | some l => l != 0 && ((n : Int) == l)

/-- The filtering loop of Collection.find: scan the loaded documents in
storage order, collect those matching the query, and return as soon as
the limit test fires.  A raised evaluation error aborts the whole
find. -/
def findLoop (q : Value) (limit : Option Int) : List Doc → List Doc → Except EvalError (List Doc)
  | [], results => .ok results
  | d :: ds, results =>
    match applyQuery q d with
    | .error e => .error e
    | .ok false => findLoop q limit ds results
    | .ok true =>
      if limitReached limit (results.length + 1) then .ok (results ++ [d])
      else findLoop q limit ds (results ++ [d])

/-- Collection.find(query, limit) over the stored rows (id, data) of
the collection table, in storage order: `query = query or {}` (a falsy
query becomes the match-everything empty query), load each row, filter
through _apply_query, truncate at the limit. -/
def find (rows : List (Int × List (String × Value))) (query : Value) (limit : Option Int) :
    Except EvalError (List Doc) :=
  findLoop (if pyTruthy query then query else .obj []) limit
    (rows.map (fun r => load r.1 r.2)) []

/-- An error escaping Collection.find: an evaluation error, or the
sqlite3.OperationalError raised when the collection table does not
exist. -/
inductive DbError where
  | eval : EvalError → DbError
  | operationalError : DbError
  deriving DecidableEq

/-- Collection.find including the table lookup: a missing table (the
collection was never created) raises sqlite3.OperationalError from the
select statement. -/
def findDb (col : Option (List (Int × List (String × Value)))) (query : Value)
    (limit : Option Int) : Except DbError (List Doc) :=
  match col with
  | none => .error .operationalError
  | some rows =>
    match find rows query limit with
    | .ok l => .ok l
    | .error e => .error (.eval e)

/-- Collection.find_one: `find(query, limit=1)[0]`, with
sqlite3.OperationalError (missing table) and IndexError (empty result)
caught and turned into None; any other exception propagates. -/
def find_one (col : Option (List (Int × List (String × Value)))) (query : Value) :
    Except DbError (Option Doc) :=
  match findDb col query (some 1) with
  | .error .operationalError => .ok none
  | .error e => .error e
  | .ok [] => .ok none
  | .ok (d :: _) => .ok (some d)

/-- Whether evaluation of a query against a document succeeds with a
True match (specification-side helper for stating the result of find). -/
def isMatch (q : Value) (d : Doc) : Bool :=
  match applyQuery q d with
  | .ok true => true
  | _ => false

/-- Whether evaluation of a query against a document returns a boolean
rather than raising. -/
def evalOk (q : Value) (d : Doc) : Bool :=
  match applyQuery q d with
  | .ok _ => true
  | .error _ => false

/-- The effective query of find: `query or {}`. -/
def effQuery (q : Value) : Value :=
  if pyTruthy q then q else .obj []

/-- Truncation as the specification states it: an absent limit or a
limit at most 0 means unbounded, a positive limit keeps the first
matches only. -/
def applyLimit : Option Int → List Doc → List Doc
  | none, l => l
  | some k, l => if k ≤ 0 then l else l.take k.toNat

/-- Well-formedness of one operator argument, per the table of the specification, the
operator table strengthened so that evaluation cannot raise: the six
comparison operators accept anything; $in and $nin need an iterable;
$all needs an iterable of hashable elements; $mod needs a pair of
int-convertible values with a nonzero divisor; $exists needs a value
==-equal to True or False.  Unknown operator names are not well
formed. -/
def wfOp (op : String) (arg : Value) : Bool :=
  if op = "$eq" || op = "$ne" || op = "$gt" || op = "$gte" || op = "$lt" || op = "$lte" then true
  else if op = "$in" || op = "$nin" then (iterElems arg).isSome
  else if op = "$all" then
    match iterElems arg with
    | some xs => xs.all hashable
    | none => false
  else if op = "$mod" then
    match modPair arg with
    | some p => p.1 != 0
    | none => false
  else if op = "$exists" then pyEq arg (.bool true) || pyEq arg (.bool false)
  else false

/-- Well-formedness of an operator mapping: every operator well
formed. -/
def wfOps : List (String × Value) → Bool
  | [] => true
  | (op, arg) :: rest => wfOp op arg && wfOps rest

mutual
/-- Well-formedness of the entry list of a query. -/
def wfEntries : List (String × Value) → Bool
  | [] => true
  | (f, v) :: rest => wfClause f v && wfEntries rest
termination_by structural es => es

/-- Well-formedness of one query entry: logical keywords need a list of
well-formed sub-queries ($not a single one); an operator mapping needs
well-formed operators; a literal clause must not use a dotted field
name (the dotted descent can raise AttributeError on an uncooperative
document). -/
def wfClause : String → Value → Bool
  | f, v =>
    if f = "$and" || f = "$or" || f = "$nor" then
      match v with
      | .arr qs => wfList qs
      | _ => false
    else if f = "$not" then
      match v with
      | .obj entries => wfEntries entries
      | _ => false
    else
      match v with
      | .obj ops => wfOps ops
      | _ => !pyContains f '.'
termination_by structural _ v => v

/-- Well-formedness of a list of sub-queries: each must be a dict with
well-formed entries. -/
def wfList : List Value → Bool
  | [] => true
  | q :: qs =>
    (match q with
     | .obj entries => wfEntries entries
     | _ => false) && wfList qs
termination_by structural qs => qs
end

/-- Well-formedness of a whole query: a dict with well-formed
entries. -/
def wfQuery : Value → Bool
  | .obj entries => wfEntries entries
  | _ => false

/-- The recursive reapply call sites inside the evaluator are the body
of applyQuery inlined. -/
theorem reapply_eq_applyQuery (v : Value) (doc : Doc) :
    (match v with
     | .obj entries => evalEntries entries doc
     | _ => .error EvalError.attributeError) = applyQuery v doc := by
  cases v <;> rfl

/-- A well-formed operator invocation returns a boolean: the shape
checks that raise MalformedQueryException are ruled out by wfOp, the
zero-divisor ZeroDivisionError of $mod by its nonzero-divisor clause,
and every data-level mismatch falls back to a False result. -/
theorem applyOperator_wf_ok (op field : String) (arg : Value) (doc : Doc)
    (h : wfOp op arg = true) : ∃ b, applyOperator op field arg doc = Except.ok b := by
  unfold wfOp at h
  split_ifs at h with h1 h2 h3 h4 h5
  · simp only [Bool.or_eq_true, decide_eq_true_eq] at h1
    rcases h1 with ((((h1 | h1) | h1) | h1) | h1) | h1 <;> subst h1 <;> exact ⟨_, rfl⟩
  · simp only [Bool.or_eq_true, decide_eq_true_eq] at h2
    rcases hit : iterElems arg with _ | vs <;> rw [hit] at h
    · simp at h
    · rcases h2 with h2 | h2 <;> subst h2
      · exact ⟨_, show opIn field arg doc = _ by unfold opIn; rw [hit]⟩
      · exact ⟨_, show opNin field arg doc = _ by unfold opNin; rw [hit]⟩
  · subst h3
    rcases hit : iterElems arg with _ | xs <;> rw [hit] at h
    · simp at h
    · simp only at h
      have hrw : applyOperator "$all" field arg doc = opAll field arg doc := rfl
      rw [hrw]
      unfold opAll
      rw [hit]
      simp only [h, Bool.not_true, Bool.false_eq_true, if_false]
      split
      · exact ⟨_, rfl⟩
      · split <;> exact ⟨_, rfl⟩
  · subst h4
    rcases hmp : modPair arg with _ | ⟨d, r⟩ <;> rw [hmp] at h
    · simp at h
    · simp only [bne_iff_ne, ne_eq, decide_eq_true_eq] at h
      have hrw : applyOperator "$mod" field arg doc = opMod field arg doc := rfl
      rw [hrw]
      unfold opMod
      rw [hmp]
      rcases toInt (docGet doc field) with _ | n
      · exact ⟨_, rfl⟩
      · simp only [h, if_false]
        exact ⟨_, rfl⟩
  · subst h5
    have hrw : applyOperator "$exists" field arg doc = opExists field arg doc := rfl
    rw [hrw]
    unfold opExists
    rw [h]
    simp only [Bool.not_true, Bool.false_eq_true, if_false]
    split <;> exact ⟨_, rfl⟩

/-- A well-formed operator mapping evaluates without raising. -/
theorem evalOps_wf_ok (field : String) (ops : List (String × Value)) (doc : Doc)
    (h : wfOps ops = true) : ∃ b, evalOps field ops doc = Except.ok b := by
  induction ops with
  | nil => exact ⟨true, rfl⟩
  | cons hd tl ih =>
    obtain ⟨op, arg⟩ := hd
    rw [wfOps, Bool.and_eq_true] at h
    obtain ⟨b, hb⟩ := applyOperator_wf_ok op field arg doc h.1
    obtain ⟨b', hb'⟩ := ih h.2
    cases b
    · exact ⟨false, by rw [evalOps, hb]⟩
    · exact ⟨b', by rw [evalOps, hb, hb']⟩

/-- A literal clause with an undotted field name evaluates without
raising (the dotted descent is never entered). -/
theorem evalLiteral_undotted_ok (field : String) (value : Value) (doc : Doc)
    (h : pyContains field '.' = false) : ∃ b, evalLiteral field value doc = Except.ok b := by
  unfold evalLiteral
  rw [h]
  split <;> exact ⟨_, rfl⟩

/-- Joint safety statement for the four mutually recursive evaluator
loops, by strong induction on the size of the query fragment: a
well-formed fragment never raises. -/
theorem evalSafeAux : ∀ n : Nat,
    (∀ (entries : List (String × Value)) (doc : Doc), sizeOf entries ≤ n →
      wfEntries entries = true → ∃ b, evalEntries entries doc = Except.ok b) ∧
    (∀ (field : String) (value : Value) (doc : Doc), sizeOf value ≤ n →
      wfClause field value = true → ∃ b, evalClause field value doc = Except.ok b) ∧
    (∀ (qs : List Value) (doc : Doc), sizeOf qs ≤ n →
      wfList qs = true → ∃ b, evalAndList qs doc = Except.ok b) ∧
    (∀ (qs : List Value) (doc : Doc), sizeOf qs ≤ n →
      wfList qs = true → ∃ b, evalOrList qs doc = Except.ok b) := by
  intro n
  induction n using Nat.strong_induction_on with
  | _ n IH =>
  refine ⟨?_, ?_, ?_, ?_⟩
  · intro entries doc hs hwf
    cases entries with
    | nil => exact ⟨true, rfl⟩
    | cons hd rest =>
      obtain ⟨f, v⟩ := hd
      rw [wfEntries, Bool.and_eq_true] at hwf
      simp only [List.cons.sizeOf_spec, Prod.mk.sizeOf_spec] at hs
      obtain ⟨IH1, IH2, IH3, IH4⟩ := IH (n - 1) (by omega)
      obtain ⟨m, hm⟩ := IH2 f v doc (by omega) hwf.1
      obtain ⟨r, hr⟩ := IH1 rest doc (by omega) hwf.2
      exact ⟨m && r, by rw [evalEntries, hm, hr]⟩
  · intro field value doc hs hwf
    by_cases h1 : field = "$and"
    · subst h1
      rw [wfClause.eq_def] at hwf
      cases value with
      | arr qs =>
        simp at hwf
        simp only [Value.arr.sizeOf_spec] at hs
        obtain ⟨IH1, IH2, IH3, IH4⟩ := IH (n - 1) (by omega)
        obtain ⟨b, hb⟩ := IH3 qs doc (by omega) hwf
        exact ⟨b, by rw [show evalClause "$and" (.arr qs) doc = evalAndList qs doc from rfl, hb]⟩
      | null => simp at hwf
      | bool b => simp at hwf
      | int i => simp at hwf
      | str s => simp at hwf
      | obj o => simp at hwf
    · by_cases h2 : field = "$or"
      · subst h2
        rw [wfClause.eq_def] at hwf
        cases value with
        | arr qs =>
          simp at hwf
          simp only [Value.arr.sizeOf_spec] at hs
          obtain ⟨IH1, IH2, IH3, IH4⟩ := IH (n - 1) (by omega)
          obtain ⟨b, hb⟩ := IH4 qs doc (by omega) hwf
          exact ⟨b, by rw [show evalClause "$or" (.arr qs) doc = evalOrList qs doc from rfl, hb]⟩
        | null => simp at hwf
        | bool b => simp at hwf
        | int i => simp at hwf
        | str s => simp at hwf
        | obj o => simp at hwf
      · by_cases h3 : field = "$nor"
        · subst h3
          rw [wfClause.eq_def] at hwf
          cases value with
          | arr qs =>
            simp at hwf
            simp only [Value.arr.sizeOf_spec] at hs
            obtain ⟨IH1, IH2, IH3, IH4⟩ := IH (n - 1) (by omega)
            obtain ⟨b, hb⟩ := IH4 qs doc (by omega) hwf
            refine ⟨!b, ?_⟩
            rw [show evalClause "$nor" (.arr qs) doc =
              (match evalOrList qs doc with
               | .error e => .error e
               | .ok b => .ok (!b)) from rfl, hb]
          | null => simp at hwf
          | bool b => simp at hwf
          | int i => simp at hwf
          | str s => simp at hwf
          | obj o => simp [h1, h2] at hwf
        · by_cases h4 : field = "$not"
          · subst h4
            rw [wfClause.eq_def] at hwf
            cases value with
            | obj entries =>
              simp at hwf
              simp only [Value.obj.sizeOf_spec] at hs
              obtain ⟨IH1, IH2, IH3, IH4⟩ := IH (n - 1) (by omega)
              obtain ⟨b, hb⟩ := IH1 entries doc (by omega) hwf
              refine ⟨!b, ?_⟩
              rw [show evalClause "$not" (.obj entries) doc =
                (match evalEntries entries doc with
                 | .error e => .error e
                 | .ok b => .ok (!b)) from rfl, hb]
            | null => simp at hwf
            | bool b => simp at hwf
            | int i => simp at hwf
            | str s => simp at hwf
            | arr a => simp at hwf
          · rw [wfClause.eq_def] at hwf
            rw [evalClause.eq_def]
            simp only [h1, h2, h3, h4, decide_False, Bool.or_false, Bool.false_or,
              Bool.false_eq_true, if_false] at hwf ⊢
            cases value with
            | obj ops => exact evalOps_wf_ok field ops doc hwf
            | null => exact evalLiteral_undotted_ok field .null doc (by simpa using hwf)
            | bool b => exact evalLiteral_undotted_ok field (.bool b) doc (by simpa using hwf)
            | int i => exact evalLiteral_undotted_ok field (.int i) doc (by simpa using hwf)
            | str s => exact evalLiteral_undotted_ok field (.str s) doc (by simpa using hwf)
            | arr a => exact evalLiteral_undotted_ok field (.arr a) doc (by simpa using hwf)
  · intro qs doc hs hwf
    cases qs with
    | nil => exact ⟨true, rfl⟩
    | cons q rest =>
      cases q with
      | obj entries =>
        rw [show wfList (Value.obj entries :: rest) = (wfEntries entries && wfList rest) from rfl,
          Bool.and_eq_true] at hwf
        simp only [List.cons.sizeOf_spec, Value.obj.sizeOf_spec] at hs
        obtain ⟨IH1, IH2, IH3, IH4⟩ := IH (n - 1) (by omega)
        obtain ⟨b, hb⟩ := IH1 entries doc (by omega) hwf.1
        obtain ⟨b', hb'⟩ := IH3 rest doc (by omega) hwf.2
        cases b
        · exact ⟨false, by rw [evalAndList, hb]⟩
        · exact ⟨b', by rw [evalAndList, hb, hb']⟩
      | null => exact absurd (show wfList (Value.null :: rest) = false from rfl) (by simp [hwf])
      | bool b => exact absurd (show wfList (Value.bool b :: rest) = false from rfl) (by simp [hwf])
      | int i => exact absurd (show wfList (Value.int i :: rest) = false from rfl) (by simp [hwf])
      | str s => exact absurd (show wfList (Value.str s :: rest) = false from rfl) (by simp [hwf])
      | arr a => exact absurd (show wfList (Value.arr a :: rest) = false from rfl) (by simp [hwf])
  · intro qs doc hs hwf
    cases qs with
    | nil => exact ⟨false, rfl⟩
    | cons q rest =>
      cases q with
      | obj entries =>
        rw [show wfList (Value.obj entries :: rest) = (wfEntries entries && wfList rest) from rfl,
          Bool.and_eq_true] at hwf
        simp only [List.cons.sizeOf_spec, Value.obj.sizeOf_spec] at hs
        obtain ⟨IH1, IH2, IH3, IH4⟩ := IH (n - 1) (by omega)
        obtain ⟨b, hb⟩ := IH1 entries doc (by omega) hwf.1
        obtain ⟨b', hb'⟩ := IH4 rest doc (by omega) hwf.2
        cases b
        · exact ⟨b', by rw [evalOrList, hb, hb']⟩
        · exact ⟨true, by rw [evalOrList, hb]⟩
      | null => exact absurd (show wfList (Value.null :: rest) = false from rfl) (by simp [hwf])
      | bool b => exact absurd (show wfList (Value.bool b :: rest) = false from rfl) (by simp [hwf])
      | int i => exact absurd (show wfList (Value.int i :: rest) = false from rfl) (by simp [hwf])
      | str s => exact absurd (show wfList (Value.str s :: rest) = false from rfl) (by simp [hwf])
      | arr a => exact absurd (show wfList (Value.arr a :: rest) = false from rfl) (by simp [hwf])

/-- A well-formed query evaluates to a boolean on every document. -/
theorem applyQuery_wf_ok (q : Value) (doc : Doc) (h : wfQuery q = true) :
    ∃ b, applyQuery q doc = Except.ok b := by
  cases q with
  | obj entries =>
    obtain ⟨S1, _, _, _⟩ := evalSafeAux (sizeOf entries)
    exact S1 entries doc le_rfl h
  | null => simp [wfQuery] at h
  | bool b => simp [wfQuery] at h
  | int i => simp [wfQuery] at h
  | str s => simp [wfQuery] at h
  | arr a => simp [wfQuery] at h

/-- A one-entry query is exactly its clause. -/
theorem applyQuery_single (f : String) (v : Value) (doc : Doc) :
    applyQuery (.obj [(f, v)]) doc = evalClause f v doc := by
  show (match evalClause f v doc with
        | .error e => Except.error e
        | .ok m => Except.ok (m && true)) = evalClause f v doc
  cases evalClause f v doc with
  | error e => rfl
  | ok m => simp

/-- For a non-logical field, a dict value dispatches to the operator
loop. -/
theorem evalClause_ops (field : String) (ops : List (String × Value)) (doc : Doc)
    (h1 : field ≠ "$and") (h2 : field ≠ "$or") (h3 : field ≠ "$nor") (h4 : field ≠ "$not") :
    evalClause field (.obj ops) doc = evalOps field ops doc := by
  simp only [evalClause.eq_def]
  rw [if_neg h1, if_neg h2, if_neg h3, if_neg h4]

/-- A one-operator mapping is exactly the invocation of that operator. -/
theorem evalOps_single (op field : String) (arg : Value) (doc : Doc) :
    evalOps field [(op, arg)] doc = applyOperator op field arg doc := by
  rw [evalOps]
  cases applyOperator op field arg doc with
  | error e => rfl
  | ok b => cases b <;> rfl

/-- The cons unfolding of the $and sub-query loop, with the recursive
reapply call written through applyQuery. -/
theorem evalAndList_cons (q : Value) (qs : List Value) (doc : Doc) :
    evalAndList (q :: qs) doc =
      (match applyQuery q doc with
       | .error e => .error e
       | .ok true => evalAndList qs doc
       | .ok false => .ok false) := by
  cases q <;> rfl

/-- The cons unfolding of the $or sub-query loop, with the recursive
reapply call written through applyQuery. -/
theorem evalOrList_cons (q : Value) (qs : List Value) (doc : Doc) :
    evalOrList (q :: qs) doc =
      (match applyQuery q doc with
       | .error e => .error e
       | .ok true => .ok true
       | .ok false => evalOrList qs doc) := by
  cases q <;> rfl

/-- Truthiness of a value that compares ==-equal to True. -/
theorem pyEq_bool_true_truthy (v : Value) (h : pyEq v (.bool true) = true) :
    pyTruthy v = true := by
  cases v with
  | null => exact absurd h (by decide)
  | bool b => cases b
              · exact absurd h (by decide)
              · rfl
  | int n =>
    rw [show pyEq (Value.int n) (.bool true) = (n == 1) from rfl, beq_iff_eq] at h
    subst h
    rfl
  | str s => rw [show pyEq (Value.str s) (.bool true) = false from rfl] at h; exact Bool.noConfusion h
  | arr a => rw [show pyEq (Value.arr a) (.bool true) = false from rfl] at h; exact Bool.noConfusion h
  | obj o => rw [show pyEq (Value.obj o) (.bool true) = false from rfl] at h; exact Bool.noConfusion h

/-- Falsiness of a value that compares ==-equal to False. -/
theorem pyEq_bool_false_falsy (v : Value) (h : pyEq v (.bool false) = true) :
    pyTruthy v = false := by
  cases v with
  | null => rfl
  | bool b => cases b
              · rfl
              · exact absurd h (by decide)
  | int n =>
    rw [show pyEq (Value.int n) (.bool false) = (n == 0) from rfl, beq_iff_eq] at h
    subst h
    rfl
  | str s => rw [show pyEq (Value.str s) (.bool false) = false from rfl] at h; exact Bool.noConfusion h
  | arr a => rw [show pyEq (Value.arr a) (.bool false) = false from rfl] at h; exact Bool.noConfusion h
  | obj o => rw [show pyEq (Value.obj o) (.bool false) = false from rfl] at h; exact Bool.noConfusion h

/-- The cons unfolding of the find filter loop. -/
theorem findLoop_cons (q : Value) (limit : Option Int) (d : Doc) (ds acc : List Doc) :
    findLoop q limit (d :: ds) acc =
      (match applyQuery q d with
       | .error e => .error e
       | .ok false => findLoop q limit ds acc
       | .ok true =>
         if limitReached limit (acc.length + 1) then .ok (acc ++ [d])
         else findLoop q limit ds (acc ++ [d])) := by
  rw [findLoop]

/-- find loop, non-matching head. -/
theorem findLoop_cons_false (q : Value) (limit : Option Int) (d : Doc) (ds acc : List Doc)
    (happ : applyQuery q d = .ok false) :
    findLoop q limit (d :: ds) acc = findLoop q limit ds acc := by
  rw [findLoop_cons, happ]

/-- find loop, matching head. -/
theorem findLoop_cons_true (q : Value) (limit : Option Int) (d : Doc) (ds acc : List Doc)
    (happ : applyQuery q d = .ok true) :
    findLoop q limit (d :: ds) acc =
      (if limitReached limit (acc.length + 1) then .ok (acc ++ [d])
       else findLoop q limit ds (acc ++ [d])) := by
  rw [findLoop_cons, happ]

/-- When the limit test can never fire, the find loop is a plain filter
in scan order. -/
theorem findLoop_no_limit (q : Value) (limit : Option Int)
    (hnl : ∀ n, limitReached limit n = false) :
    ∀ (ds acc : List Doc), ds.all (fun d => evalOk q d) = true →
      findLoop q limit ds acc = .ok (acc ++ ds.filter (fun d => isMatch q d)) := by
  intro ds
  induction ds with
  | nil => intro acc _; simp [findLoop]
  | cons d rest ih =>
    intro acc hall
    rw [List.all_cons, Bool.and_eq_true] at hall
    obtain ⟨hd1, hd2⟩ := hall
    rcases happ : applyQuery q d with e | b
    · rw [evalOk, happ] at hd1; simp at hd1
    · cases b
      · have hm : isMatch q d = false := by rw [isMatch, happ]
        rw [findLoop_cons_false q limit d rest acc happ,
          List.filter_cons_of_neg (by simp [hm])]
        exact ih acc hd2
      · have hm : isMatch q d = true := by rw [isMatch, happ]
        rw [findLoop_cons_true q limit d rest acc happ, hnl (acc.length + 1)]
        simp only [Bool.false_eq_true, if_false]
        rw [List.filter_cons_of_pos (by simp [hm]), ih (acc ++ [d]) hd2]
        simp

/-- With a positive limit, the find loop is the filter truncated to the
remaining capacity. -/
theorem findLoop_bounded (q : Value) (l : Int) (hl : 0 < l) :
    ∀ (ds acc : List Doc), ds.all (fun d => evalOk q d) = true → (acc.length : Int) < l →
      findLoop q (some l) ds acc =
        .ok (acc ++ (ds.filter (fun d => isMatch q d)).take (l.toNat - acc.length)) := by
  intro ds
  induction ds with
  | nil => intro acc _ _; simp [findLoop]
  | cons d rest ih =>
    intro acc hall hlt
    rw [List.all_cons, Bool.and_eq_true] at hall
    obtain ⟨hd1, hd2⟩ := hall
    rcases happ : applyQuery q d with e | b
    · rw [evalOk, happ] at hd1; simp at hd1
    · cases b
      · have hm : isMatch q d = false := by rw [isMatch, happ]
        rw [findLoop_cons_false q (some l) d rest acc happ,
          List.filter_cons_of_neg (by simp [hm])]
        exact ih acc hd2 hlt
      · have hm : isMatch q d = true := by rw [isMatch, happ]
        rw [findLoop_cons_true q (some l) d rest acc happ,
          List.filter_cons_of_pos (by simp [hm])]
        by_cases heq : ((acc.length + 1 : Nat) : Int) = l
        · have hreach : limitReached (some l) (acc.length + 1) = true := by
            unfold limitReached
            simp only [Bool.and_eq_true, bne_iff_ne, ne_eq, beq_iff_eq]
            constructor
            · omega
            · exact_mod_cast heq
          rw [hreach, if_pos rfl]
          have h1 : l.toNat - acc.length = 1 := by omega
          rw [h1, List.take_succ_cons, List.take_zero]
        · have hreach : limitReached (some l) (acc.length + 1) = false := by
            unfold limitReached
            have hne : ¬(((acc.length + 1 : Nat) : Int) = l) := heq
            simp
            intro _
            omega
          rw [hreach]
          simp only [Bool.false_eq_true, if_false]
          rw [ih (acc ++ [d]) hd2 (by simp; omega)]
          have hk : l.toNat - acc.length = (l.toNat - (acc.length + 1)) + 1 := by omega
          rw [hk, List.take_succ_cons]
          simp
/-- The clause of $not routed through applyQuery: a non-dict operand
raises AttributeError inside the recursive call. -/
theorem evalClause_not (v : Value) (doc : Doc) :
    evalClause "$not" v doc =
      (match applyQuery v doc with
       | .error e => .error e
       | .ok b => .ok (!b)) := by
  cases v <;> rfl

/-- An operator string without the leading sigil is rejected during
resolution, before the operator function could run. -/
theorem applyOperator_bad_op (op field : String) (arg : Value) (doc : Doc)
    (h : pyStartsWith op '$' = false) :
    applyOperator op field arg doc = .error (.malformed (.notValidOperation op)) := by
  unfold applyOperator getOperatorFn
  rw [h]
  rfl

/-- A value ==-equal to False is not ==-equal to True. -/
theorem pyEq_bool_false_not_true (v : Value) (h : pyEq v (.bool false) = true) :
    pyEq v (.bool true) = false := by
  cases v with
  | null => rfl
  | bool b => cases b
              · rfl
              · exact absurd h (by decide)
  | int n =>
    rw [show pyEq (Value.int n) (.bool false) = (n == 0) from rfl, beq_iff_eq] at h
    subst h
    rfl
  | str s => rfl
  | arr a => rfl
  | obj o => rfl

/-- C1 (amended).  For every query that is well-formed in the
strengthened sense of wfQuery — every operator is registered with an
argument of the shape in the operator table, $all arguments contain
only hashable elements, $mod divisors are nonzero, logical operands are
lists of dict sub-queries, and no literal clause uses a dotted field
name — evaluation returns a boolean on every document and never
raises: every data-level mismatch degrades the clause to false. -/
theorem c1_wellformed_query_never_raises (q : Value) (doc : Doc) (h : wfQuery q = true) :
    ∃ b, applyQuery q doc = Except.ok b :=
  applyQuery_wf_ok q doc h

/-- Counterexample to C1 as stated: the $mod argument [0, 0] is a
2-element sequence of integer-convertible values, so the query is
internally well-formed per the operator table, and the document field
is numeric; yet evaluation raises an uncaught ZeroDivisionError instead
of degrading to false. -/
theorem c1_mod_zero_divisor_raises :
    applyQuery (.obj [("a", .obj [("$mod", .arr [.int 0, .int 0])])]) [("a", .int 3)] =
      .error .zeroDivisionError := rfl

/-- Witness for C1: the nested query from the _apply_query docstring is
well-formed and evaluates without raising. -/
theorem c1_wellformed_witness :
    wfQuery (.obj [("bar", .str "baz"),
      ("$or", .arr [
        .obj [("foo", .obj [("$gte", .int 0), ("$lte", .int 10),
          ("$mod", .arr [.int 2, .int 0])])],
        .obj [("foo", .obj [("$gt", .int 10), ("$mod", .arr [.int 2, .int 1])])]])]) = true ∧
    ∃ b, applyQuery (.obj [("bar", .str "baz"),
      ("$or", .arr [
        .obj [("foo", .obj [("$gte", .int 0), ("$lte", .int 10),
          ("$mod", .arr [.int 2, .int 0])])],
        .obj [("foo", .obj [("$gt", .int 10), ("$mod", .arr [.int 2, .int 1])])]])])
      [("bar", .str "baz"), ("foo", .int 4)] = Except.ok b :=
  ⟨by decide, c1_wellformed_query_never_raises _ _ (by decide)⟩

/-- C2 (code bug in the source).  The specification requires
evaluate(avalue at a dotted path, non-mapping intermediate) to be false
without raising, and the descent loop does catch AttributeError; but
the final segment lookup sits outside the try/except, so the literal
dotted clause a.b against a document where a holds a non-mapping,
non-None value raises an uncaught AttributeError. -/
theorem c2_dotted_nonmapping_attribute_error :
    applyQuery (.obj [("a.b", .int 5)]) [("a", .int 1)] = .error .attributeError := rfl

/-- C3 (amended).  An operator string that does not start with the
sigil, or that starts with it but whose sigil-to-underscore replacement
is neither a registered operator function nor a dunder attribute of the
module object, fails resolution with a MalformedQueryException value
that names the offending operator string in its message data and is
distinct from every wrong-argument-shape error value.  (As originally
stated the claim fails: a replacement that collides with a module
dunder attribute resolves without raising.) -/
theorem c3_unknown_operator_distinct_error (op : String)
    (h : pyStartsWith op '$' = false ∨ lookupOp (opReplace op) = none) :
    ∃ e, getOperatorFn op = Except.error e ∧
      MalformedQueryException.namedOperator e = some op ∧
      MalformedQueryException.isShapeError e = false := by
  by_cases hs : pyStartsWith op '$' = false
  · refine ⟨.notValidOperation op, ?_, rfl, rfl⟩
    unfold getOperatorFn
    rw [hs]
    rfl
  · have hs' : pyStartsWith op '$' = true := by
      cases hpc : pyStartsWith op '$'
      · exact absurd hpc hs
      · rfl
    rcases h with h | h
    · exact absurd h hs
    · refine ⟨.notImplemented op, ?_, rfl, rfl⟩
      unfold getOperatorFn
      rw [hs', h]
      rfl

/-- Counterexample to C3 as stated: the operator string with two
leading and two trailing sigils around the word name is not a
registered operator, yet resolution does not fail — its replacement
collides with the module dunder attribute holding the module name, so
getattr returns that string object and no MalformedQueryException is
raised; the subsequent three-argument call of a string raises an
uncaught TypeError, which names nothing and is not an
UnknownOperator-kind error. -/
theorem c3_dunder_counterexample :
    getOperatorFn "$$name$$" = .ok (.dunder "__name__") ∧
    applyQuery (.obj [("a", .obj [("$$name$$", .int 1)])]) [] = .error .typeError :=
  ⟨rfl, rfl⟩

/-- Witness for C3 at the unregistered operator string of the test
suite. -/
theorem c3_unknown_operator_witness :
    ∃ e, getOperatorFn "$foo" = Except.error e ∧
      MalformedQueryException.namedOperator e = some "$foo" ∧
      MalformedQueryException.isShapeError e = false :=
  c3_unknown_operator_distinct_error "$foo" (Or.inr rfl)

/-- C4.  The logical operators satisfy the boolean laws: $and of two
sub-queries is the conjunction of their evaluations, $or the
disjunction, $nor the negated disjunction, $not the negation, and the
empty-sequence conventions hold ($and of nothing is true, $or of
nothing is false). -/
theorem c4_logical_operator_laws (q1 q2 : Value) (doc : Doc) (b1 b2 : Bool)
    (h1 : applyQuery q1 doc = Except.ok b1) (h2 : applyQuery q2 doc = Except.ok b2) :
    applyQuery (.obj [("$and", .arr [q1, q2])]) doc = .ok (b1 && b2) ∧
    applyQuery (.obj [("$or", .arr [q1, q2])]) doc = .ok (b1 || b2) ∧
    applyQuery (.obj [("$nor", .arr [q1, q2])]) doc = .ok (!(b1 || b2)) ∧
    applyQuery (.obj [("$not", q1)]) doc = .ok (!b1) ∧
    applyQuery (.obj [("$and", .arr ([] : List Value))]) doc = .ok true ∧
    applyQuery (.obj [("$or", .arr ([] : List Value))]) doc = .ok false := by
  have hand : evalAndList [q1, q2] doc = .ok (b1 && b2) := by
    rw [evalAndList_cons, h1]
    cases b1
    · rfl
    · show evalAndList [q2] doc = Except.ok (true && b2)
      rw [evalAndList_cons, h2]
      cases b2 <;> rfl
  have hor : evalOrList [q1, q2] doc = .ok (b1 || b2) := by
    rw [evalOrList_cons, h1]
    cases b1
    · show evalOrList [q2] doc = Except.ok (false || b2)
      rw [evalOrList_cons, h2]
      cases b2 <;> rfl
    · rfl
  refine ⟨?_, ?_, ?_, ?_, rfl, rfl⟩
  · rw [applyQuery_single,
      show evalClause "$and" (.arr [q1, q2]) doc = evalAndList [q1, q2] doc from rfl, hand]
  · rw [applyQuery_single,
      show evalClause "$or" (.arr [q1, q2]) doc = evalOrList [q1, q2] doc from rfl, hor]
  · rw [applyQuery_single,
      show evalClause "$nor" (.arr [q1, q2]) doc =
        (match evalOrList [q1, q2] doc with
         | .error e => .error e
         | .ok b => .ok (!b)) from rfl, hor]
  · rw [applyQuery_single, evalClause_not, h1]

/-- Witness for C4 with one matching and one non-matching sub-query. -/
theorem c4_logical_operator_witness :
    applyQuery (.obj [("$and", .arr [.obj [("x", .int 1)], .obj [("y", .int 2)]])])
      [("x", .int 1)] = .ok (true && false) ∧
    applyQuery (.obj [("$or", .arr [.obj [("x", .int 1)], .obj [("y", .int 2)]])])
      [("x", .int 1)] = .ok (true || false) ∧
    applyQuery (.obj [("$nor", .arr [.obj [("x", .int 1)], .obj [("y", .int 2)]])])
      [("x", .int 1)] = .ok (!(true || false)) ∧
    applyQuery (.obj [("$not", .obj [("x", .int 1)])]) [("x", .int 1)] = .ok (!true) ∧
    applyQuery (.obj [("$and", .arr ([] : List Value))]) [("x", .int 1)] = .ok true ∧
    applyQuery (.obj [("$or", .arr ([] : List Value))]) [("x", .int 1)] = .ok false :=
  c4_logical_operator_laws (.obj [("x", .int 1)]) (.obj [("y", .int 2)])
    [("x", .int 1)] true false rfl rfl

/-- C5 (amended).  A $eq clause on a non-logical field name compares
the argument against document.get(field, None) — a plain top-level key
lookup with a None default and no dotted-path descent — and the
comparison itself never raises. -/
theorem c5_eq_plain_field_lookup (field : String) (arg : Value) (doc : Doc)
    (h1 : field ≠ "$and") (h2 : field ≠ "$or") (h3 : field ≠ "$nor") (h4 : field ≠ "$not") :
    applyQuery (.obj [(field, .obj [("$eq", arg)])]) doc =
      .ok (pyEq (docGet doc field) arg) := by
  rw [applyQuery_single, evalClause_ops field _ doc h1 h2 h3 h4, evalOps_single]
  rfl

/-- Counterexample to C5 as stated: $eq does not perform dotted-path
resolution, so the clause a.b with $eq 5 does not match the nested
document where a.b resolves to 5 — document.get returns None for the
literal key a.b and the clause is false. -/
theorem c5_eq_dotted_counterexample :
    applyQuery (.obj [("a.b", .obj [("$eq", .int 5)])]) [("a", .obj [("b", .int 5)])] =
      .ok false := rfl

/-- Witness for C5 at a plain field. -/
theorem c5_eq_witness :
    applyQuery (.obj [("foo", .obj [("$eq", .int 5)])]) [("foo", .int 5)] =
      .ok (pyEq (docGet [("foo", .int 5)] "foo") (.int 5)) :=
  c5_eq_plain_field_lookup "foo" (.int 5) [("foo", .int 5)]
    (by decide) (by decide) (by decide) (by decide)

/-- C6 (amended).  A $mod argument that is not a two-element iterable
of int-convertible values raises MalformedQueryException; with such a
pair [divisor, remainder], a field value that is not int-convertible
yields false without raising, and an int-convertible field value with a
nonzero divisor yields int(fieldValue) mod divisor == remainder (Python
floor mod); a zero divisor instead raises ZeroDivisionError. -/
theorem c6_mod_semantics (field : String) (arg : Value) (doc : Doc)
    (h1 : field ≠ "$and") (h2 : field ≠ "$or") (h3 : field ≠ "$nor") (h4 : field ≠ "$not") :
    (modPair arg = none →
      applyQuery (.obj [(field, .obj [("$mod", arg)])]) doc =
        .error (.malformed .modPair)) ∧
    (∀ d r, modPair arg = some (d, r) → toInt (docGet doc field) = none →
      applyQuery (.obj [(field, .obj [("$mod", arg)])]) doc = .ok false) ∧
    (∀ d r n, modPair arg = some (d, r) → d ≠ 0 → toInt (docGet doc field) = some n →
      applyQuery (.obj [(field, .obj [("$mod", arg)])]) doc =
        .ok (Int.fmod n d == r)) := by
  have hq : applyQuery (.obj [(field, .obj [("$mod", arg)])]) doc = opMod field arg doc := by
    rw [applyQuery_single, evalClause_ops field _ doc h1 h2 h3 h4, evalOps_single]
    rfl
  refine ⟨?_, ?_, ?_⟩
  · intro hmp
    rw [hq]
    unfold opMod
    rw [hmp]
  · intro d r hmp hti
    rw [hq]
    unfold opMod
    simp only [hmp, hti]
  · intro d r n hmp hd hti
    rw [hq]
    unfold opMod
    simp only [hmp, hti, if_neg hd]

/-- Counterexample to C6 as stated: the pair [0, 0] is a 2-element
sequence of integers, so by the claim the clause should be the boolean
int(8) mod 0 == 0, but evaluation raises an uncaught
ZeroDivisionError. -/
theorem c6_mod_zero_divisor_counterexample :
    applyQuery (.obj [("a", .obj [("$mod", .arr [.int 0, .int 0])])]) [("a", .int 8)] =
      .error .zeroDivisionError := rfl

/-- Witness for C6: 8 mod 4 == 0. -/
theorem c6_mod_witness :
    applyQuery (.obj [("a", .obj [("$mod", .arr [.int 4, .int 0])])]) [("a", .int 8)] =
      .ok true := by
  have h := (c6_mod_semantics "a" (.arr [.int 4, .int 0]) [("a", .int 8)]
    (by decide) (by decide) (by decide) (by decide)).2.2 4 0 8 rfl (by decide) rfl
  exact h.trans rfl

/-- C7 (amended).  A $exists clause raises MalformedQueryException
exactly when its argument is not Python-==-equal to True or False; the
integers 1 and 0 compare equal to the booleans and therefore do not
raise, behaving as True and False.  With a True-equal argument the
clause is true iff the field is present, with a False-equal argument
iff it is absent. -/
theorem c7_exists_semantics (field : String) (arg : Value) (doc : Doc)
    (h1 : field ≠ "$and") (h2 : field ≠ "$or") (h3 : field ≠ "$nor") (h4 : field ≠ "$not") :
    (pyEq arg (.bool true) = false → pyEq arg (.bool false) = false →
      applyQuery (.obj [(field, .obj [("$exists", arg)])]) doc =
        .error (.malformed .existsBool)) ∧
    (pyEq arg (.bool true) = true →
      applyQuery (.obj [(field, .obj [("$exists", arg)])]) doc = .ok (hasKey doc field)) ∧
    (pyEq arg (.bool false) = true →
      applyQuery (.obj [(field, .obj [("$exists", arg)])]) doc = .ok (!hasKey doc field)) := by
  have hq : applyQuery (.obj [(field, .obj [("$exists", arg)])]) doc =
      opExists field arg doc := by
    rw [applyQuery_single, evalClause_ops field _ doc h1 h2 h3 h4, evalOps_single]
    rfl
  refine ⟨?_, ?_, ?_⟩
  · intro ht hf
    rw [hq]
    unfold opExists
    rw [ht, hf]
    rfl
  · intro ht
    rw [hq]
    unfold opExists
    rw [ht, pyEq_bool_true_truthy arg ht]
    rfl
  · intro hf
    rw [hq]
    unfold opExists
    rw [hf, pyEq_bool_false_not_true arg hf, pyEq_bool_false_falsy arg hf]
    rfl

/-- Counterexample to C7 as stated: the integer argument 1 is not a
boolean, yet no MalformedQueryException is raised — 1 == True in the
tuple membership check, so the clause behaves as $exists True and the
empty document yields false. -/
theorem c7_exists_int_counterexample :
    applyQuery (.obj [("a", .obj [("$exists", .int 1)])]) [] = .ok false := rfl

/-- Witness for C7: a boolean True argument against a document holding
the field. -/
theorem c7_exists_witness :
    applyQuery (.obj [("a", .obj [("$exists", .bool true)])]) [("a", .int 1)] = .ok true := by
  have h := (c7_exists_semantics "a" (.bool true) [("a", .int 1)]
    (by decide) (by decide) (by decide) (by decide)).2.1 rfl
  exact h.trans rfl

/-- C8.  Whenever evaluation succeeds on every stored document, find
returns exactly the matching documents, in scan (storage) order,
truncated at the limit; an absent limit or a limit at most 0 means
unbounded. -/
theorem c8_find_scan_order_limit (rows : List (Int × List (String × Value))) (query : Value)
    (limit : Option Int)
    (hall : ((rows.map (fun r => load r.1 r.2)).all
      (fun d => evalOk (effQuery query) d)) = true) :
    find rows query limit =
      .ok (applyLimit limit ((rows.map (fun r => load r.1 r.2)).filter
        (fun d => isMatch (effQuery query) d))) := by
  unfold find
  rw [show (if pyTruthy query then query else Value.obj []) = effQuery query from rfl]
  rcases limit with _ | l
  · rw [findLoop_no_limit (effQuery query) none (fun n => rfl) _ [] hall]
    rfl
  · by_cases hp : 0 < l
    · rw [findLoop_bounded (effQuery query) l hp _ [] hall
        (by simp only [List.length_nil, Nat.cast_zero]; exact hp)]
      simp only [applyLimit]
      rw [if_neg (by omega)]
      simp
    · have hnl : ∀ n, limitReached (some l) n = false := by
        intro n
        unfold limitReached
        rcases eq_or_ne l 0 with h0 | h0
        · simp [h0]
        · have hne : ¬((n : Int) = l) := by omega
          simp [h0, hne]
      rw [findLoop_no_limit (effQuery query) (some l) hnl _ [] hall]
      simp only [applyLimit]
      rw [if_pos (by omega)]
      simp

/-- Witness for C8 at the scenario of the specification, with limit 1. -/
theorem c8_find_witness :
    find [(1, [("foo", .str "bar"), ("baz", .str "qux")]),
          (2, [("foo", .str "bar")]), (3, [("foo", .str "baz")])]
      (.obj [("foo", .str "bar")]) (some 1) =
      .ok (applyLimit (some 1)
        (([((1 : Int), [("foo", Value.str "bar"), ("baz", Value.str "qux")]),
           (2, [("foo", Value.str "bar")]), (3, [("foo", Value.str "baz")])].map
            (fun r => load r.1 r.2)).filter
          (fun d => isMatch (effQuery (.obj [("foo", .str "bar")])) d))) :=
  c8_find_scan_order_limit _ _ _ (by decide)

/-- C9.  find_one returns the first element of find(query, limit=1)
when one exists, and otherwise returns None instead of raising, with a
missing collection (sqlite3.OperationalError) collapsed into the same
None outcome as an empty result. -/
theorem c9_find_one_semantics :
    (∀ (col : Option (List (Int × List (String × Value)))) (q : Value) (d : Doc)
        (rest : List Doc),
      findDb col q (some 1) = .ok (d :: rest) → find_one col q = .ok (some d)) ∧
    (∀ (col : Option (List (Int × List (String × Value)))) (q : Value),
      findDb col q (some 1) = .ok [] → find_one col q = .ok none) ∧
    (∀ q : Value, find_one none q = .ok none) := by
  refine ⟨?_, ?_, ?_⟩
  · intro col q d rest h
    unfold find_one
    rw [h]
  · intro col q h
    unfold find_one
    rw [h]
  · intro q
    rfl

/-- Witness for C9: a non-matching query over a one-document collection
yields None. -/
theorem c9_find_one_witness :
    find_one (some [(1, [("foo", .str "bar")])]) (.obj [("foo", .str "baz")]) = .ok none :=
  c9_find_one_semantics.2.1 (some [(1, [("foo", .str "bar")])]) (.obj [("foo", .str "baz")])
    rfl

/-- C10 (amended).  In a per-field operator mapping, keys are examined
in order and the first key that does not begin with the sigil raises a
MalformedQueryException naming it, against every document — in
particular the literal nested-document query a maps-to (b maps-to 1)
raises against every document, and literal equality against a nested
document value is never performed; but a non-sigil key preceded by an
operator that evaluates to false is never reached, because the loop
breaks at the first false. -/
theorem c10_leading_non_sigil_key_raises (field k : String) (arg : Value)
    (rest : List (String × Value)) (doc : Doc)
    (h1 : field ≠ "$and") (h2 : field ≠ "$or") (h3 : field ≠ "$nor") (h4 : field ≠ "$not")
    (hk : pyStartsWith k '$' = false) :
    applyQuery (.obj [(field, .obj ((k, arg) :: rest))]) doc =
      .error (.malformed (.notValidOperation k)) := by
  rw [applyQuery_single, evalClause_ops field _ doc h1 h2 h3 h4, evalOps,
    applyOperator_bad_op k field arg doc hk]

/-- Counterexample to C10 as stated: the mapping contains the
non-sigil key b, but the earlier $eq operator evaluates to false
against this document, the loop breaks, and evaluation returns false
without raising. -/
theorem c10_short_circuit_counterexample :
    applyQuery (.obj [("a", .obj [("$eq", .int 5), ("b", .int 1)])]) [("a", .int 6)] =
      .ok false := rfl

/-- Witness for C10: the literal nested-document query raises even
against a document that literally contains that nested value. -/
theorem c10_witness :
    applyQuery (.obj [("a", .obj [("b", .int 1)])]) [("a", .obj [("b", .int 1)])] =
      .error (.malformed (.notValidOperation "b")) :=
  c10_leading_non_sigil_key_raises "a" "b" (.int 1) [] [("a", .obj [("b", .int 1)])]
    (by decide) (by decide) (by decide) (by decide) (by decide)
